import Mathlib

/-!
Shallow embedding of `src/src/App.tsx` (the KYC submission component).

The component's React `useState` hooks are gathered into one record
`AppState`; each event handler of the source becomes a pure function
`AppState → ... → AppState`.  Browser facilities (getUserMedia, the video
element, the canvas encoder, FileReader) are modelled as explicit
environment records passed to the handlers; their asynchronous callbacks
are applied atomically, which matches the single-threaded event-loop
observable states between handler runs.
-/

/-- String containment test, modelling JavaScript `String.prototype.includes`. -/
def listStartsWith : List Char → List Char → Bool
  | [], _ => true
  | _ :: _, [] => false
  | p :: ps, c :: cs => p == c && listStartsWith ps cs

def strContainsAux (p : List Char) : List Char → Bool
  | [] => p.isEmpty
  | c :: cs => listStartsWith p (c :: cs) || strContainsAux p cs

def strContains (s pat : String) : Bool :=
  strContainsAux pat.data s.data

/-- `App.tsx` line 6: `documentType: 'passport' | 'id_card' | 'drivers_license'`. -/
inductive DocumentType
  | passport
  | id_card
  | drivers_license
deriving DecidableEq

/-- `App.tsx` lines 5-8: the `FormData` interface. -/
structure FormData where
  documentType : DocumentType
  country : String
deriving DecidableEq

/-- `App.tsx` lines 11-16: the `FormErrors` interface.  A field holds `none`
where the JS object has no key or the key is `undefined`; the two are
observationally identical in the component (only truthiness and
`Object.keys` on freshly built objects are ever used). -/
structure FormErrors where
  country : Option String := none
  documentFront : Option String := none
  documentBack : Option String := none
  selfie : Option String := none
deriving DecidableEq

/-- `Object.keys(newErrors).length === 0` on an error object freshly built by
a validator (which only ever assigns defined messages). -/
def FormErrors.isEmpty (e : FormErrors) : Bool :=
  e.country.isNone && e.documentFront.isNone && e.documentBack.isNone && e.selfie.isNone

/-- A browser `File`: the component reads `size`, `name`, `type`, and decodes
the content to a data URL via `FileReader.readAsDataURL`. -/
structure FileV where
  name : String
  size : Nat
  mime : String
  content : String
deriving DecidableEq

/-- A `Blob` produced by `canvas.toBlob`. -/
structure BlobV where
  size : Nat
  bytes : String
deriving DecidableEq

/-- A `MediaStream`: we only observe its tracks (as opaque ids), which
`track.stop()` releases. -/
structure StreamV where
  tracks : List Nat
deriving DecidableEq

/-- A JavaScript error value as inspected by the component (`err.name`,
`err.message`). -/
structure JsError where
  name : String
  message : String
deriving DecidableEq

/-- All `useState` hooks of `KYCSubmissionWebsite` (`App.tsx` lines 19-35),
plus `stoppedTracks`: the accumulated external effect of every
`track.stop()` call, recording that a stream was released. -/
@[ext]
structure AppState where
  currentStep : Nat
  formData : FormData
  documentFrontFile : Option FileV
  documentBackFile : Option FileV
  selfieFile : Option FileV
  documentFrontPreview : Option String
  documentBackPreview : Option String
  selfiePreview : Option String
  errors : FormErrors
  isSubmitting : Bool
  submitSuccess : Bool
  showCamera : Bool
  stream : Option StreamV
  cameraError : Option String
  stoppedTracks : List Nat
deriving DecidableEq

/-- The initial `useState` values (`App.tsx` lines 19-35). -/
def initState : AppState :=
  { currentStep := 1
    formData := { documentType := .passport, country := "" }
    documentFrontFile := none
    documentBackFile := none
    selfieFile := none
    documentFrontPreview := none
    documentBackPreview := none
    selfiePreview := none
    errors := {}
    isSubmitting := false
    submitSuccess := false
    showCamera := false
    stream := none
    cameraError := none
    stoppedTracks := [] }

/-- `['id_card', 'drivers_license'].includes(formData.documentType)`
(`App.tsx` lines 63 and 544). -/
def requiresBack (dt : DocumentType) : Bool :=
  [DocumentType.id_card, DocumentType.drivers_license].contains dt

/-- `validateStep1` (`App.tsx` lines 55-69): builds a fresh error object and
returns whether it is empty.  `!formData.country` is JS string falsiness,
i.e. equality with `""`. -/
def validateStep1 (s : AppState) : AppState × Bool :=
  let newErrors : FormErrors :=
    { country := if s.formData.country = "" then some "Country is required" else none
      documentFront :=
        if s.documentFrontFile.isNone then
          some "Please upload the front of your document"
        else none
      documentBack :=
        if requiresBack s.formData.documentType && s.documentBackFile.isNone then
          some "Please upload the back of your document"
        else none
      selfie := none }
  ({ s with errors := newErrors }, newErrors.isEmpty)

/-- `validateStep2` (`App.tsx` lines 71-77). -/
def validateStep2 (s : AppState) : AppState × Bool :=
  let newErrors : FormErrors :=
    { country := none, documentFront := none, documentBack := none
      selfie := if s.selfieFile.isNone then some "Please capture a selfie" else none }
  ({ s with errors := newErrors }, newErrors.isEmpty)

/-- A change event reaching `handleInputChange`: the two inputs that use it
are the `documentType` select and the `country` text input
(`App.tsx` lines 462-487). -/
inductive InputEvt
  | documentType (v : DocumentType)
  | country (v : String)
deriving DecidableEq

/-- JS truthiness of `errors[name]` for an optional string. -/
def errTruthy : Option String → Bool
  | none => false
  | some m => m != ""

/-- `handleInputChange` (`App.tsx` lines 79-85): stores the new value in
`formData`, then clears `errors[name]` when it is truthy.  For the
`documentType` select, `errors["documentType"]` is not a key of
`FormErrors`, hence always `undefined` and never cleared. -/
def handleInputChange (s : AppState) (e : InputEvt) : AppState :=
  match e with
  | .documentType v =>
      { s with formData := { s.formData with documentType := v } }
  | .country v =>
      let s1 := { s with formData := { s.formData with country := v } }
      if errTruthy s1.errors.country then
        { s1 with errors := { s1.errors with country := none } }
      else s1

/-- The two document upload slots of `handleFileUpload`. -/
inductive DocSlot
  | front
  | back
deriving DecidableEq

/-- `FileReader.readAsDataURL`: the decode of a file to a displayable data
URL, abstracted over the base64 payload. -/
def readAsDataURL (f : FileV) : String :=
  "data:" ++ f.mime ++ ";base64," ++ f.content

/-- `handleFileUpload` (`App.tsx` lines 87-112), with the `reader.onloadend`
callback applied.  The computed error key
`document${type.charAt(0).toUpperCase() + type.slice(1)}` is `documentFront`
for `'front'` and `documentBack` for `'back'`. -/
def handleFileUpload (s : AppState) (slot : DocSlot) (file : FileV) : AppState :=
  if file.size > 5 * 1024 * 1024 then
    match slot with
    | .front =>
        { s with errors := { s.errors with
            documentFront := some "File size must be less than 5MB" } }
    | .back =>
        { s with errors := { s.errors with
            documentBack := some "File size must be less than 5MB" } }
  else
    match slot with
    | .front =>
        { s with documentFrontFile := some file
                 documentFrontPreview := some (readAsDataURL file)
                 errors := { s.errors with documentFront := none } }
    | .back =>
        { s with documentBackFile := some file
                 documentBackPreview := some (readAsDataURL file)
                 errors := { s.errors with documentBack := none } }

/-- Slot accessors for stating per-slot properties. -/
def slotFile : DocSlot → AppState → Option FileV
  | .front, s => s.documentFrontFile
  | .back, s => s.documentBackFile

def slotPreview : DocSlot → AppState → Option String
  | .front, s => s.documentFrontPreview
  | .back, s => s.documentBackPreview

def slotError : DocSlot → AppState → Option String
  | .front, s => s.errors.documentFront
  | .back, s => s.errors.documentBack

/-- A width/height entry of a getUserMedia video constraint
(`App.tsx` lines 142-173): either `{ ideal: i }` or `{ min, ideal, max }`. -/
inductive DimConstraint
  | ideal (i : Nat)
  | bounded (lo : Nat) (i : Nat) (hi : Nat)
deriving DecidableEq

/-- The object form of the `video` constraint. -/
structure VideoDetail where
  facingMode : Option String
  width : Option DimConstraint
  height : Option DimConstraint
deriving DecidableEq

/-- `video: {...}` or `video: true`. -/
inductive VideoConstraint
  | detail (d : VideoDetail)
  | enabled
deriving DecidableEq

/-- One getUserMedia constraint profile. -/
structure Constraints where
  video : VideoConstraint
  audio : Bool
deriving DecidableEq

/-- The first profile: ideal front-facing 1280x720 (`App.tsx` lines 144-151). -/
def preferredConstraints : Constraints :=
  { video := .detail
      { facingMode := some "user"
        width := some (.ideal 1280)
        height := some (.ideal 720) }
    audio := false }

/-- The second profile: front-facing with min/ideal/max ranges
(`App.tsx` lines 153-160). -/
def boundedConstraints : Constraints :=
  { video := .detail
      { facingMode := some "user"
        width := some (.bounded 640 1280 1920)
        height := some (.bounded 480 720 1080) }
    audio := false }

/-- The third profile: front-facing only (`App.tsx` lines 162-167). -/
def facingOnlyConstraints : Constraints :=
  { video := .detail { facingMode := some "user", width := none, height := none }
    audio := false }

/-- The last profile: bare `video: true` (`App.tsx` lines 169-172). -/
def bareVideoConstraints : Constraints :=
  { video := .enabled, audio := false }

/-- `constraintsOptions` (`App.tsx` lines 142-173). -/
def constraintsOptions : List Constraints :=
  [preferredConstraints, boundedConstraints, facingOnlyConstraints, bareVideoConstraints]

/-- The `for (const constraints of constraintsOptions)` loop
(`App.tsx` lines 175-192): `mediaStream` starts null, `lastError` threads
through; the first successful `getUserMedia` breaks the loop; if none
succeeds, the retained `lastError` is thrown. -/
def tryConstraints (attempt : Constraints → Except JsError StreamV) :
    List Constraints → Option JsError → Except (Option JsError) StreamV
  | [], lastError => .error lastError
  | c :: rest, _ =>
      match attempt c with
      | .ok ms => .ok ms
      | .error e => tryConstraints attempt rest (some e)

/-- The browser environment consumed by `startCamera`: feature probes on
`navigator`, the user-agent and location checks, the `getUserMedia`
outcome per constraint profile, and whether binding/playing the video
element reports an error through its callbacks. -/
structure CamEnv where
  mediaDevicesAvail : Bool
  getUserMediaAvail : Bool
  isAndroid : Bool
  protocol : String
  hostname : String
  attempt : Constraints → Except JsError StreamV
  playbackError : Bool

/-- Message of the `Error` thrown when the camera API is missing
(`App.tsx` lines 123, 125, 129). -/
def apiUnsupportedMsg : String :=
  "Camera API not supported in this browser. For Android devices, please try Chrome, Firefox, or Samsung Internet Browser."

/-- Message of the `Error` thrown for Android over an insecure origin
(`App.tsx` line 137). -/
def androidHttpsMsg : String :=
  "Camera access on Android requires HTTPS. Please use a secure connection or try a different browser."

/-- Stand-in for `throw lastError` when `lastError` is still null; unreachable
because `constraintsOptions` is non-empty. -/
def nullThrownError : JsError := { name := "", message := "" }

/-- The `try` block of `startCamera` up to acquiring a stream
(`App.tsx` lines 118-192): feature checks, Android HTTPS check, then the
constraint-fallback loop.  `new Error(msg)` has `name = "Error"`. -/
def startAcquire (env : CamEnv) : Except JsError StreamV :=
  if env.mediaDevicesAvail = false then
    .error { name := "Error", message := apiUnsupportedMsg }
  else if env.getUserMediaAvail = false then
    .error { name := "Error", message := apiUnsupportedMsg }
  else if env.isAndroid && env.protocol != "https:" && env.hostname != "localhost" then
    .error { name := "Error", message := androidHttpsMsg }
  else
    match tryConstraints env.attempt constraintsOptions none with
    | .ok ms => .ok ms
    | .error (some e) => .error e
    | .error none => .error nullThrownError

/-- The `catch` classification of `startCamera` (`App.tsx` lines 222-240):
maps device-API error identifiers to user-facing categories.  JS
`err.message && err.message.includes(p)` is modelled as non-emptiness
plus containment. -/
def classifyCameraError (err : JsError) : String :=
  "Unable to access camera. " ++
    (if err.name = "NotAllowedError" ∨ err.name = "PermissionDeniedError" then
      "Please allow camera permissions in your browser settings."
    else if err.name = "NotFoundError" ∨ err.name = "OverconstrainedError" then
      "No camera found on this device."
    else if err.name = "NotReadableError" ∨ err.name = "TrackStartError" then
      "Camera is already in use by another application."
    else if err.message != "" && strContains err.message "secure context" then
      "Camera access requires a secure context (HTTPS). Please ensure you are using HTTPS."
    else if err.message != "" && strContains err.message "supported in this browser" then
      apiUnsupportedMsg
    else if err.message != "" && strContains err.message "HTTPS" then
      androidHttpsMsg
    else
      "Please check your camera connection and try again. Error: " ++
        (if err.message != "" then err.message else err.name))

/-- The playback-failure message set by the `onloadeddata`/`onerror`
callbacks (`App.tsx` lines 211, 218). -/
def playbackErrorMsg : String :=
  "Error starting camera. Please try again or use a different browser."

/-- `startCamera` (`App.tsx` lines 114-246): clears the session error, opens
the camera panel, then on acquisition success stores the stream (surfacing
any playback error without leaving the streaming configuration); on failure
classifies the error, stores it as session error and `errors.selfie`, and
hides the camera view. -/
def startCamera (s : AppState) (env : CamEnv) : AppState :=
  let s1 := { s with cameraError := none, showCamera := true }
  match startAcquire env with
  | .ok ms =>
      let s2 := { s1 with stream := some ms }
      if env.playbackError then { s2 with cameraError := some playbackErrorMsg } else s2
  | .error err =>
      let msg := classifyCameraError err
      { s1 with cameraError := some msg
                errors := { s1.errors with selfie := some msg }
                showCamera := false }

/-- `stopCamera` (`App.tsx` lines 248-257): stops every track of the active
stream (recorded in `stoppedTracks`), nulls the stream, closes the panel,
clears the session error. -/
def stopCamera (s : AppState) : AppState :=
  match s.stream with
  | some ms =>
      { s with stream := none
               showCamera := false
               cameraError := none
               stoppedTracks := s.stoppedTracks ++ ms.tracks }
  | none => { s with showCamera := false, cameraError := none }

/-- Tracks of an optional stream. -/
def streamTracks : Option StreamV → List Nat
  | some ms => ms.tracks
  | none => []

/-- The browser environment consumed by `capturePhoto`: the video/canvas
refs, the video's reported frame dimensions, 2d-context availability,
whether `drawImage` throws, the `canvas.toBlob` encoder and the
`canvas.toDataURL` encoder. -/
structure CaptureEnv where
  videoPresent : Bool
  canvasPresent : Bool
  videoWidth : Nat
  videoHeight : Nat
  ctxAvail : Bool
  drawError : Option String
  encodeBlob : String → ℚ → Option BlobV
  dataURL : String → String

/-- `capturePhoto` (`App.tsx` lines 259-307), with the `toBlob` callback
applied.  The snapshot is requested as `'image/jpeg'` at quality `0.9`;
the resulting blob is wrapped as `new File([blob], 'selfie.jpg',
{ type: 'image/jpeg' })`; on success the preview is `canvas.toDataURL
('image/jpeg')`, `stopCamera()` runs and the selfie error is cleared. -/
def capturePhoto (s : AppState) (env : CaptureEnv) : AppState :=
  if env.videoPresent = false ∨ env.canvasPresent = false then
    { s with cameraError := some "Camera elements not ready. Please try again." }
  else if env.videoWidth = 0 ∨ env.videoHeight = 0 then
    { s with cameraError := some "Camera stream not ready. Please wait a moment and try again." }
  else if env.ctxAvail = false then
    { s with cameraError := some ("Error capturing photo: " ++ "Unable to get canvas context") }
  else
    match env.drawError with
    | some m =>
        let detail := if m != "" then m else "Unknown error"
        { s with cameraError := some ("Error capturing photo: " ++ detail) }
    | none =>
        match env.encodeBlob "image/jpeg" (0.9 : ℚ) with
        | none => { s with cameraError := some "Failed to capture image. Please try again." }
        | some b =>
            let file : FileV :=
              { name := "selfie.jpg", size := b.size, mime := "image/jpeg", content := b.bytes }
            let s1 := { s with selfieFile := some file
                               selfiePreview := some (env.dataURL "image/jpeg") }
            let s2 := stopCamera s1
            { s2 with errors := { s2.errors with selfie := none } }

/-- `resetForm` (`App.tsx` lines 331-352).  It does not touch
`isSubmitting`. -/
def resetForm (s : AppState) : AppState :=
  let s1 := { s with currentStep := 1
                     formData := { documentType := .passport, country := "" }
                     documentFrontFile := none
                     documentBackFile := none
                     selfieFile := none
                     documentFrontPreview := none
                     documentBackPreview := none
                     selfiePreview := none
                     errors := {}
                     submitSuccess := false
                     cameraError := none }
  match s1.stream with
  | some ms =>
      { s1 with stream := none
                showCamera := false
                stoppedTracks := s1.stoppedTracks ++ ms.tracks }
  | none => { s1 with showCamera := false }

/-- `handleNext` (`App.tsx` lines 309-319) together with the immediate effect
of `handleSubmit` (line 322, `setIsSubmitting(true)`); the deferred
`setTimeout(startCamera, 300)` is applied in place (nothing else can run
meanwhile that alters its guard). -/
def handleNext (s : AppState) (env : CamEnv) : AppState :=
  if s.currentStep = 1 then
    if (validateStep1 s).2 then
      if !({ (validateStep1 s).1 with currentStep := 2 }).showCamera &&
          ({ (validateStep1 s).1 with currentStep := 2 }).selfieFile.isNone then
        startCamera { (validateStep1 s).1 with currentStep := 2 } env
      else { (validateStep1 s).1 with currentStep := 2 }
    else (validateStep1 s).1
  else if s.currentStep = 2 then
    if (validateStep2 s).2 then { (validateStep2 s).1 with isSubmitting := true }
    else (validateStep2 s).1
  else s

/-- The remove button of a document slot (`App.tsx` lines 507-515, 556-565):
clears the slot's file and preview. -/
def removeDocument (s : AppState) (slot : DocSlot) : AppState :=
  match slot with
  | .front => { s with documentFrontFile := none, documentFrontPreview := none }
  | .back => { s with documentBackFile := none, documentBackPreview := none }

/-- The selfie remove button (`App.tsx` lines 687-696): clears the selfie
file and preview, then restarts the camera. -/
def removeSelfiePhoto (s : AppState) (env : CamEnv) : AppState :=
  startCamera { s with selfieFile := none, selfiePreview := none } env

/-- The user-triggerable operations of the component, each carrying the
browser environment its handler consumes. -/
inductive Op
  | input (e : InputEvt)
  | upload (slot : DocSlot) (f : FileV)
  | removeDoc (slot : DocSlot)
  | startCam (env : CamEnv)
  | cancelCam
  | capture (env : CaptureEnv)
  | removeSelfie (env : CamEnv)
  | next (env : CamEnv)
  | prev
  | finishSubmit
  | reset

/-- The guard under which each operation can fire, read off the JSX: an
operation is available exactly when its button/input is rendered and not
disabled (`App.tsx` lines 354-772).  The form view renders only while
`submitSuccess` is false; step-1 widgets render at `currentStep = 1`, the
camera panel, selfie preview and start button render at `currentStep = 2`
in mutually exclusive branches (`showCamera ? ... : selfiePreview ? ... :
...`, lines 625-732); the capture button is disabled without a stream
(line 662); the next button is disabled while submitting (line 753);
`finishSubmit` is the pending submission timer. -/
def enabled : Op → AppState → Prop
  | .input _, s => s.submitSuccess = false ∧ s.currentStep = 1
  | .upload .front _, s =>
      s.submitSuccess = false ∧ s.currentStep = 1 ∧ s.documentFrontPreview = none
  | .upload .back _, s =>
      s.submitSuccess = false ∧ s.currentStep = 1 ∧
        requiresBack s.formData.documentType = true ∧ s.documentBackPreview = none
  | .removeDoc .front, s =>
      s.submitSuccess = false ∧ s.currentStep = 1 ∧ s.documentFrontPreview.isSome = true
  | .removeDoc .back, s =>
      s.submitSuccess = false ∧ s.currentStep = 1 ∧
        requiresBack s.formData.documentType = true ∧ s.documentBackPreview.isSome = true
  | .startCam _, s =>
      s.submitSuccess = false ∧ s.currentStep = 2 ∧ s.showCamera = false ∧
        s.selfiePreview = none
  | .cancelCam, s => s.submitSuccess = false ∧ s.currentStep = 2 ∧ s.showCamera = true
  | .capture _, s =>
      s.submitSuccess = false ∧ s.currentStep = 2 ∧ s.showCamera = true ∧ s.stream ≠ none
  | .removeSelfie _, s =>
      s.submitSuccess = false ∧ s.currentStep = 2 ∧ s.showCamera = false ∧
        s.selfiePreview.isSome = true
  | .next _, s => s.submitSuccess = false ∧ s.isSubmitting = false
  | .prev, s => s.submitSuccess = false ∧ 1 < s.currentStep
  | .finishSubmit, s => s.isSubmitting = true
  | .reset, s => s.submitSuccess = true

/-- The state transformer of each operation. -/
def applyOp : Op → AppState → AppState
  | .input e, s => handleInputChange s e
  | .upload slot f, s => handleFileUpload s slot f
  | .removeDoc slot, s => removeDocument s slot
  | .startCam env, s => startCamera s env
  | .cancelCam, s => stopCamera s
  | .capture env, s => capturePhoto s env
  | .removeSelfie env, s => removeSelfiePhoto s env
  | .next env, s => handleNext s env
  | .prev, s => { s with currentStep := s.currentStep - 1 }
  | .finishSubmit, s => { s with isSubmitting := false, submitSuccess := true }
  | .reset, s => resetForm s

/-- States reachable from the initial render through enabled operations. -/
inductive Reachable : AppState → Prop
  | init : Reachable initState
  | step (s : AppState) (op : Op) :
      Reachable s → enabled op s → Reachable (applyOp op s)

/-- The operation is a selfie capture. -/
def isCaptureStep : Op → Prop
  | .capture _ => True
  | _ => False

/-- The operation is a selfie removal. -/
def isRemoveSelfieStep : Op → Prop
  | .removeSelfie _ => True
  | _ => False

/-- The inductive invariant: the camera panel and a selfie preview are never
shown together, and the selfie file and its preview are set together. -/
def CamInv (s : AppState) : Prop :=
  (s.showCamera = true → s.selfiePreview = none) ∧
    s.selfieFile.isSome = s.selfiePreview.isSome

/-- Concrete inputs used to evaluate the theorems below on closed terms. -/
def oversizedFile : FileV :=
  { name := "big.png", size := 5 * 1024 * 1024 + 1, mime := "image/png", content := "x" }

def smallFile : FileV :=
  { name := "front.png", size := 1234, mime := "image/png", content := "QUFB" }

def stateWithFrontError : AppState :=
  { initState with errors := { documentFront := some "Please upload the front of your document" } }

/-- The error keys of `FormErrors`. -/
inductive ErrField
  | country
  | documentFront
  | documentBack
  | selfie
deriving DecidableEq

def getErr (e : FormErrors) : ErrField → Option String
  | .country => e.country
  | .documentFront => e.documentFront
  | .documentBack => e.documentBack
  | .selfie => e.selfie

/-- The `FormErrors` key named by the event's input, i.e. the key read by
`errors[name]`: `"documentType"` is not a key of `FormErrors`. -/
def evtKey : InputEvt → Option ErrField
  | .documentType _ => none
  | .country _ => some .country

/-- The recorded error for the field an input event names. -/
def evtErr (s : AppState) (e : InputEvt) : Option String :=
  match evtKey e with
  | some k => getErr s.errors k
  | none => none

def stateWithCountryError : AppState :=
  { initState with errors := { country := some "Country is required" } }

def streamingState : AppState :=
  { initState with currentStep := 2, showCamera := true, stream := some { tracks := [7] } }

def okCaptureEnv : CaptureEnv :=
  { videoPresent := true, canvasPresent := true, videoWidth := 640, videoHeight := 480
    ctxAvail := true, drawError := none
    encodeBlob := fun _ _ => some { size := 321, bytes := "JPEGBYTES" }
    dataURL := fun _ => "data:image/jpeg;base64,QkxPQg==" }

def notReadyEnv : CaptureEnv :=
  { videoPresent := true, canvasPresent := true, videoWidth := 0, videoHeight := 0
    ctxAvail := true, drawError := none
    encodeBlob := fun _ _ => none
    dataURL := fun _ => "" }

def failAllAttempt : Constraints → Except JsError StreamV :=
  fun _ => .error { name := "NotFoundError", message := "Requested device not found" }

/-- C1: for every form state, `validateStep1` returns true iff country is
non-empty, a front document file is present, and (documentType is not in
{id_card, drivers_license} or a back document file is present); and
`validateStep2` returns true iff a selfie file is present. -/
theorem validateStep_spec (s : AppState) :
    ((validateStep1 s).2 = true ↔
      (s.formData.country ≠ "" ∧ s.documentFrontFile.isSome = true ∧
        (¬(s.formData.documentType = DocumentType.id_card ∨
            s.formData.documentType = DocumentType.drivers_license) ∨
          s.documentBackFile.isSome = true))) ∧
    ((validateStep2 s).2 = true ↔ s.selfieFile.isSome = true) := by
  constructor
  · by_cases hc : s.formData.country = "" <;>
      cases hf : s.documentFrontFile <;>
        cases hb : s.documentBackFile <;>
          cases hdt : s.formData.documentType <;>
            simp_all [validateStep1, FormErrors.isEmpty, requiresBack]
  · cases hs : s.selfieFile <;> simp [validateStep2, FormErrors.isEmpty, hs]

/-- C2: a file strictly larger than 5 MiB leaves the slot's stored file and
preview unchanged and sets the slot's size-error message. -/
theorem handleFileUpload_oversize_spec (s : AppState) (slot : DocSlot) (f : FileV)
    (h : f.size > 5 * 1024 * 1024) :
    slotFile slot (handleFileUpload s slot f) = slotFile slot s ∧
    slotPreview slot (handleFileUpload s slot f) = slotPreview slot s ∧
    slotError slot (handleFileUpload s slot f) = some "File size must be less than 5MB" := by
  cases slot <;> simp [handleFileUpload, slotFile, slotPreview, slotError, h]

theorem handleFileUpload_oversize_witness :
    slotFile .front (handleFileUpload initState .front oversizedFile) = none ∧
    slotPreview .front (handleFileUpload initState .front oversizedFile) = none ∧
    slotError .front (handleFileUpload initState .front oversizedFile) =
      some "File size must be less than 5MB" := by
  have h := handleFileUpload_oversize_spec initState .front oversizedFile (by decide)
  exact ⟨h.1.trans rfl, h.2.1.trans rfl, h.2.2⟩

/-- C3: a file of at most 5 MiB is stored in the slot, a preview derived from
it is stored, and the slot's prior error is cleared. -/
theorem handleFileUpload_accept_spec (s : AppState) (slot : DocSlot) (f : FileV)
    (h : f.size ≤ 5 * 1024 * 1024) :
    slotFile slot (handleFileUpload s slot f) = some f ∧
    slotPreview slot (handleFileUpload s slot f) = some (readAsDataURL f) ∧
    slotError slot (handleFileUpload s slot f) = none := by
  cases slot <;>
    simp [handleFileUpload, slotFile, slotPreview, slotError, Nat.not_lt.mpr h]

theorem handleFileUpload_accept_witness :
    slotFile .front (handleFileUpload stateWithFrontError .front smallFile) = some smallFile ∧
    slotPreview .front (handleFileUpload stateWithFrontError .front smallFile) =
      some "data:image/png;base64,QUFB" ∧
    slotError .front (handleFileUpload stateWithFrontError .front smallFile) = none := by
  have h := handleFileUpload_accept_spec stateWithFrontError .front smallFile (by decide)
  exact ⟨h.1, h.2.1.trans (by rfl), h.2.2⟩

/-- C8: `stopCamera` is idempotent, and after it the stream is null, the
camera panel is closed and the session error is cleared. -/
theorem stopCamera_idempotent_spec (s : AppState) :
    stopCamera (stopCamera s) = stopCamera s ∧
    (stopCamera s).stream = none ∧
    (stopCamera s).showCamera = false ∧
    (stopCamera s).cameraError = none := by
  cases h : s.stream <;> simp [stopCamera, h]

/-- C9: after `resetForm`, regardless of the prior state, the form data is
{passport, ""}, all three file slots and previews are cleared, the error
map is empty, and any active stream is stopped (its tracks released) and
nulled. -/
theorem resetForm_spec (s : AppState) :
    (resetForm s).formData = { documentType := .passport, country := "" } ∧
    (resetForm s).documentFrontFile = none ∧
    (resetForm s).documentBackFile = none ∧
    (resetForm s).selfieFile = none ∧
    (resetForm s).documentFrontPreview = none ∧
    (resetForm s).documentBackPreview = none ∧
    (resetForm s).selfiePreview = none ∧
    (resetForm s).errors = {} ∧
    (resetForm s).stream = none ∧
    (resetForm s).showCamera = false ∧
    (resetForm s).stoppedTracks = s.stoppedTracks ++ streamTracks s.stream := by
  cases h : s.stream <;> simp [resetForm, streamTracks, h]

/-- C10: `handleInputChange` clears the changed field's recorded error
message and leaves every other field's error and all file slots and
previews unchanged. -/
theorem handleInputChange_spec (s : AppState) (e : InputEvt) :
    (∀ m, m ≠ "" → evtErr s e = some m → evtErr (handleInputChange s e) e = none) ∧
    (handleInputChange s e).documentFrontFile = s.documentFrontFile ∧
    (handleInputChange s e).documentBackFile = s.documentBackFile ∧
    (handleInputChange s e).selfieFile = s.selfieFile ∧
    (handleInputChange s e).documentFrontPreview = s.documentFrontPreview ∧
    (handleInputChange s e).documentBackPreview = s.documentBackPreview ∧
    (handleInputChange s e).selfiePreview = s.selfiePreview ∧
    (∀ k : ErrField, some k ≠ evtKey e →
      getErr (handleInputChange s e).errors k = getErr s.errors k) := by
  cases e with
  | documentType v => simp [handleInputChange, evtErr, evtKey]
  | country v =>
      by_cases h : errTruthy s.errors.country = true
      · refine ⟨?_, ?_⟩
        · intro m hm hrec
          simp [handleInputChange, h, evtErr, evtKey, getErr]
        · simp [handleInputChange, h, evtKey]
          intro k hk
          cases k <;> simp_all [getErr]
      · refine ⟨?_, ?_⟩
        · intro m hm hrec
          exfalso
          simp [evtErr, evtKey, getErr] at hrec
          simp [errTruthy, hrec] at h
          exact hm h
        · simp [handleInputChange, h, evtKey]

theorem handleInputChange_witness :
    evtErr (handleInputChange stateWithCountryError (.country "United States"))
      (.country "United States") = none :=
  (handleInputChange_spec stateWithCountryError (.country "United States")).1
    "Country is required" (by decide) rfl

/-- C4: a successful `capturePhoto` stores a selfie file named `selfie.jpg`
built from the blob the canvas encoded as `image/jpeg` at quality 0.9,
stores a non-empty preview, and returns the camera session to idle: the
stream is nulled (its tracks released) and the camera panel is closed. -/
theorem capturePhoto_success_spec (s : AppState) (env : CaptureEnv) (b : BlobV)
    (hv : env.videoPresent = true) (hc : env.canvasPresent = true)
    (hw : env.videoWidth ≠ 0) (hh : env.videoHeight ≠ 0)
    (hctx : env.ctxAvail = true) (hdraw : env.drawError = none)
    (hblob : env.encodeBlob "image/jpeg" (0.9 : ℚ) = some b)
    (hurl : env.dataURL "image/jpeg" ≠ "") :
    (capturePhoto s env).selfieFile =
      some { name := "selfie.jpg", size := b.size, mime := "image/jpeg", content := b.bytes } ∧
    (capturePhoto s env).selfiePreview = some (env.dataURL "image/jpeg") ∧
    (∃ d, (capturePhoto s env).selfiePreview = some d ∧ d ≠ "") ∧
    (capturePhoto s env).stream = none ∧
    (capturePhoto s env).showCamera = false ∧
    (capturePhoto s env).cameraError = none ∧
    (capturePhoto s env).stoppedTracks = s.stoppedTracks ++ streamTracks s.stream ∧
    (capturePhoto s env).errors.selfie = none := by
  cases hst : s.stream <;>
    simp [capturePhoto, hv, hc, hw, hh, hctx, hdraw, hblob, hurl, stopCamera,
      streamTracks, hst]

theorem capturePhoto_success_witness :
    (capturePhoto streamingState okCaptureEnv).selfieFile =
      some { name := "selfie.jpg", size := 321, mime := "image/jpeg", content := "JPEGBYTES" } ∧
    (capturePhoto streamingState okCaptureEnv).showCamera = false ∧
    (capturePhoto streamingState okCaptureEnv).stream = none ∧
    (capturePhoto streamingState okCaptureEnv).stoppedTracks = [7] := by
  have h := capturePhoto_success_spec streamingState okCaptureEnv
    { size := 321, bytes := "JPEGBYTES" } rfl rfl (by decide) (by decide) rfl rfl rfl
    (by decide)
  exact ⟨h.1, h.2.2.2.2.1, h.2.2.2.1, h.2.2.2.2.2.2.1.trans rfl⟩

/-- C5: `capturePhoto` while no stream is active (the video element then
reports zero frame dimensions) or while the reported frame dimensions are
zero only records a "not ready" camera error: no selfie file or preview is
created and the stream and camera-panel position are untouched. -/
theorem capturePhoto_not_ready_spec (s : AppState) (env : CaptureEnv)
    (hcouple : s.stream = none → env.videoWidth = 0)
    (h : s.stream = none ∨ env.videoWidth = 0 ∨ env.videoHeight = 0) :
    (∃ m, capturePhoto s env = { s with cameraError := some m } ∧
      strContains m "not ready" = true) ∧
    (capturePhoto s env).selfieFile = s.selfieFile ∧
    (capturePhoto s env).selfiePreview = s.selfiePreview ∧
    (capturePhoto s env).stream = s.stream ∧
    (capturePhoto s env).showCamera = s.showCamera := by
  have hdim : env.videoWidth = 0 ∨ env.videoHeight = 0 := by
    rcases h with h | h | h
    · exact Or.inl (hcouple h)
    · exact Or.inl h
    · exact Or.inr h
  by_cases hv : env.videoPresent = false ∨ env.canvasPresent = false
  · refine ⟨⟨"Camera elements not ready. Please try again.", ?_, by decide⟩, ?_, ?_, ?_, ?_⟩ <;>
      simp [capturePhoto, hv]
  · refine ⟨⟨"Camera stream not ready. Please wait a moment and try again.", ?_, by decide⟩,
      ?_, ?_, ?_, ?_⟩ <;>
      simp [capturePhoto, hv, hdim]

theorem capturePhoto_not_ready_witness :
    (capturePhoto initState notReadyEnv).selfieFile = none ∧
    (capturePhoto initState notReadyEnv).selfiePreview = none ∧
    (capturePhoto initState notReadyEnv).showCamera = false := by
  have h := capturePhoto_not_ready_spec initState notReadyEnv (fun _ => rfl) (Or.inl rfl)
  exact ⟨h.2.1.trans rfl, h.2.2.1.trans rfl, h.2.2.2.2.trans rfl⟩

/-- The loop ignores everything before the first successful profile, whatever
failures preceded it. -/
theorem tryConstraints_first_success (attempt : Constraints → Except JsError StreamV) :
    ∀ (pre : List Constraints) (c : Constraints) (rest : List Constraints)
      (ms : StreamV) (lastE : Option JsError),
      (∀ c0 ∈ pre, ∃ e, attempt c0 = .error e) → attempt c = .ok ms →
      tryConstraints attempt (pre ++ c :: rest) lastE = .ok ms := by
  intro pre
  induction pre with
  | nil =>
      intro c rest ms lastE _ hc
      simp [tryConstraints, hc]
  | cons c0 pre ih =>
      intro c rest ms lastE hfail hc
      obtain ⟨e0, he0⟩ := hfail c0 (by simp)
      simpa [tryConstraints, he0] using
        ih c rest ms (some e0) (fun c1 h1 => hfail c1 (by simp [h1])) hc

/-- When every profile fails, the loop reports the failure of the last
profile attempted. -/
theorem tryConstraints_all_fail (attempt : Constraints → Except JsError StreamV) :
    ∀ (l : List Constraints) (lastE : Option JsError) (cl : Constraints) (e : JsError),
      (∀ c ∈ l, ∃ e0, attempt c = .error e0) →
      l.getLast? = some cl → attempt cl = .error e →
      tryConstraints attempt l lastE = .error (some e) := by
  intro l
  induction l with
  | nil => intro lastE cl e _ hlast; simp at hlast
  | cons c0 rest ih =>
      intro lastE cl e hfail hlast hcl
      obtain ⟨e0, he0⟩ := hfail c0 (by simp)
      cases rest with
      | nil =>
          simp at hlast
          subst hlast
          rw [he0] at hcl
          cases hcl
          simp [tryConstraints, he0]
      | cons c1 rest1 =>
          have hlast1 : (c1 :: rest1).getLast? = some cl := by
            simpa [List.getLast?_cons_cons] using hlast
          simpa [tryConstraints, he0] using
            ih (some e0) cl e (fun c h => hfail c (by simp [h])) hlast1 hcl

/-- C6: `startCamera` tries the ordered profile list `constraintsOptions`,
whose first element is the ideal front-facing 1280x720 request and whose
last is bare `video: true`; the first succeeding profile's stream is the
result and the loop stops there, and when every profile fails the reported
error is the last profile's failure; under the pre-checks the acquisition
result is exactly the loop's result. -/
theorem startCamera_fallback_spec :
    constraintsOptions =
      [preferredConstraints, boundedConstraints, facingOnlyConstraints, bareVideoConstraints] ∧
    (∀ (attempt : Constraints → Except JsError StreamV) (pre : List Constraints)
        (c : Constraints) (rest : List Constraints) (ms : StreamV),
      constraintsOptions = pre ++ c :: rest →
      (∀ c0 ∈ pre, ∃ e, attempt c0 = .error e) → attempt c = .ok ms →
      tryConstraints attempt constraintsOptions none = .ok ms) ∧
    (∀ (attempt : Constraints → Except JsError StreamV) (e : JsError),
      (∀ c ∈ constraintsOptions, ∃ e0, attempt c = .error e0) →
      attempt bareVideoConstraints = .error e →
      tryConstraints attempt constraintsOptions none = .error (some e)) ∧
    (∀ (env : CamEnv) (ms : StreamV),
      env.mediaDevicesAvail = true → env.getUserMediaAvail = true →
      (env.isAndroid && env.protocol != "https:" && env.hostname != "localhost") = false →
      tryConstraints env.attempt constraintsOptions none = .ok ms →
      startAcquire env = .ok ms) := by
  refine ⟨rfl, ?_, ?_, ?_⟩
  · intro attempt pre c rest ms hsplit hfail hc
    rw [hsplit]
    exact tryConstraints_first_success attempt pre c rest ms none hfail hc
  · intro attempt e hfail he
    exact tryConstraints_all_fail attempt constraintsOptions none bareVideoConstraints e
      hfail rfl he
  · intro env ms h1 h2 h3 hloop
    simp [startAcquire, h1, h2, h3, hloop]

theorem startCamera_fallback_witness :
    tryConstraints failAllAttempt constraintsOptions none =
      .error (some { name := "NotFoundError", message := "Requested device not found" }) :=
  startCamera_fallback_spec.2.2.1 failAllAttempt
    { name := "NotFoundError", message := "Requested device not found" }
    (fun _ _ => ⟨{ name := "NotFoundError", message := "Requested device not found" }, rfl⟩)
    rfl

/-- `startCamera` never touches the selfie file or its preview. -/
theorem startCamera_selfie_frame (s : AppState) (env : CamEnv) :
    (startCamera s env).selfieFile = s.selfieFile ∧
    (startCamera s env).selfiePreview = s.selfiePreview := by
  cases h : startAcquire env <;> by_cases hp : env.playbackError = true <;>
    simp [startCamera, h, hp]

/-- `stopCamera` never touches the selfie file or its preview, and closes
the panel. -/
theorem stopCamera_cam_frame (s : AppState) :
    (stopCamera s).selfieFile = s.selfieFile ∧
    (stopCamera s).selfiePreview = s.selfiePreview ∧
    (stopCamera s).showCamera = false := by
  cases h : s.stream <;> simp [stopCamera, h]

/-- `capturePhoto` either only records a camera error, or stores both the
selfie file and preview and closes the panel. -/
theorem capturePhoto_cases (s : AppState) (env : CaptureEnv) :
    (∃ m, capturePhoto s env = { s with cameraError := some m }) ∨
    ((capturePhoto s env).selfieFile.isSome = true ∧
      (capturePhoto s env).selfiePreview.isSome = true ∧
      (capturePhoto s env).showCamera = false) := by
  by_cases h1 : env.videoPresent = false ∨ env.canvasPresent = false
  · exact Or.inl ⟨"Camera elements not ready. Please try again.", by simp [capturePhoto, h1]⟩
  · by_cases h2 : env.videoWidth = 0 ∨ env.videoHeight = 0
    · exact Or.inl ⟨"Camera stream not ready. Please wait a moment and try again.",
        by simp [capturePhoto, h1, h2]⟩
    · by_cases h3 : env.ctxAvail = false
      · exact Or.inl ⟨"Error capturing photo: " ++ "Unable to get canvas context",
          by simp [capturePhoto, h1, h2, h3]⟩
      · cases h4 : env.drawError with
        | some m =>
            exact Or.inl ⟨"Error capturing photo: " ++ (if m != "" then m else "Unknown error"),
              by simp [capturePhoto, h1, h2, h3, h4]⟩
        | none =>
            cases h5 : env.encodeBlob "image/jpeg" (0.9 : ℚ) with
            | none =>
                exact Or.inl ⟨"Failed to capture image. Please try again.",
                  by simp [capturePhoto, h1, h2, h3, h4, h5]⟩
            | some b =>
                right
                cases h6 : s.stream <;>
                  simp [capturePhoto, h1, h2, h3, h4, h5, stopCamera, h6]

/-- `handleInputChange` never touches the camera fields. -/
theorem handleInputChange_cam_frame (s : AppState) (e : InputEvt) :
    (handleInputChange s e).selfieFile = s.selfieFile ∧
    (handleInputChange s e).selfiePreview = s.selfiePreview ∧
    (handleInputChange s e).showCamera = s.showCamera := by
  cases e with
  | documentType v => simp [handleInputChange]
  | country v =>
      by_cases h : errTruthy s.errors.country = true <;> simp [handleInputChange, h]

/-- `handleFileUpload` never touches the camera fields. -/
theorem handleFileUpload_cam_frame (s : AppState) (slot : DocSlot) (f : FileV) :
    (handleFileUpload s slot f).selfieFile = s.selfieFile ∧
    (handleFileUpload s slot f).selfiePreview = s.selfiePreview ∧
    (handleFileUpload s slot f).showCamera = s.showCamera := by
  by_cases h : f.size > 5 * 1024 * 1024 <;> cases slot <;> simp [handleFileUpload, h]

/-- `removeDocument` never touches the camera fields. -/
theorem removeDocument_cam_frame (s : AppState) (slot : DocSlot) :
    (removeDocument s slot).selfieFile = s.selfieFile ∧
    (removeDocument s slot).selfiePreview = s.selfiePreview ∧
    (removeDocument s slot).showCamera = s.showCamera := by
  cases slot <;> simp [removeDocument]

/-- A state with no selfie preview satisfies the invariant after
`startCamera`. -/
theorem camInv_startCamera (s : AppState) (env : CamEnv)
    (hp : s.selfiePreview = none) (hfp : s.selfieFile.isSome = s.selfiePreview.isSome) :
    CamInv (startCamera s env) := by
  obtain ⟨hf, hpv⟩ := startCamera_selfie_frame s env
  constructor
  · intro _
    rw [hpv, hp]
  · rw [hf, hpv]
    exact hfp

/-- `handleNext` never touches the selfie file or its preview. -/
theorem handleNext_selfie_frame (s : AppState) (env : CamEnv) :
    (handleNext s env).selfieFile = s.selfieFile ∧
    (handleNext s env).selfiePreview = s.selfiePreview := by
  unfold handleNext
  split
  · split
    · split
      · constructor
        · rw [(startCamera_selfie_frame _ env).1]
          simp [validateStep1]
        · rw [(startCamera_selfie_frame _ env).2]
          simp [validateStep1]
      · simp [validateStep1]
    · simp [validateStep1]
  · split
    · split <;> simp [validateStep2]
    · simp

/-- When a selfie file is present, `handleNext` cannot open the camera
panel. -/
theorem handleNext_showCamera_frame (s : AppState) (env : CamEnv)
    (hf : s.selfieFile.isNone = false) :
    (handleNext s env).showCamera = s.showCamera := by
  unfold handleNext
  split
  · split
    · split
      · rename_i hg
        exfalso
        simp only [Bool.and_eq_true] at hg
        have hg2 := hg.2
        simp only [validateStep1] at hg2
        rw [hf] at hg2
        cases hg2
      · simp [validateStep1]
    · simp [validateStep1]
  · split
    · split <;> simp [validateStep2]
    · simp

/-- The invariant survives a state whose camera fields are untouched. -/
theorem camInv_of_frame {s t : AppState}
    (hf : t.selfieFile = s.selfieFile) (hp : t.selfiePreview = s.selfiePreview)
    (hc : t.showCamera = s.showCamera) (hInv : CamInv s) : CamInv t := by
  obtain ⟨h1, h2⟩ := hInv
  constructor
  · intro h
    rw [hp]
    exact h1 (hc ▸ h)
  · rw [hf, hp]
    exact h2

/-- `handleNext` preserves the invariant. -/
theorem camInv_handleNext (s : AppState) (env : CamEnv) (hInv : CamInv s) :
    CamInv (handleNext s env) := by
  obtain ⟨h1, h2⟩ := hInv
  unfold handleNext
  split
  · split
    · split
      · rename_i hg
        simp only [Bool.and_eq_true] at hg
        have hg2 := hg.2
        simp only [validateStep1] at hg2
        have hfile : s.selfieFile = none := by
          cases hss : s.selfieFile
          · rfl
          · rw [hss] at hg2; cases hg2
        have hprev : s.selfiePreview = none := by
          have := h2
          rw [hfile] at this
          cases hsp : s.selfiePreview
          · rfl
          · rw [hsp] at this; cases this
        apply camInv_startCamera
        · simpa [validateStep1] using hprev
        · simp [validateStep1]
          exact h2
      · exact camInv_of_frame (by simp [validateStep1]) (by simp [validateStep1])
          (by simp [validateStep1]) ⟨h1, h2⟩
    · exact camInv_of_frame (by simp [validateStep1]) (by simp [validateStep1])
        (by simp [validateStep1]) ⟨h1, h2⟩
  · split
    · split
      · exact camInv_of_frame (by simp [validateStep2]) (by simp [validateStep2])
          (by simp [validateStep2]) ⟨h1, h2⟩
      · exact camInv_of_frame (by simp [validateStep2]) (by simp [validateStep2])
          (by simp [validateStep2]) ⟨h1, h2⟩
    · exact camInv_of_frame rfl rfl rfl ⟨h1, h2⟩

/-- Every enabled operation preserves the invariant. -/
theorem camInv_step (s : AppState) (op : Op) (hInv : CamInv s) (hen : enabled op s) :
    CamInv (applyOp op s) := by
  obtain ⟨h1, h2⟩ := hInv
  cases op with
  | input e =>
      obtain ⟨hf, hp, hc⟩ := handleInputChange_cam_frame s e
      exact camInv_of_frame hf hp hc ⟨h1, h2⟩
  | upload slot f =>
      obtain ⟨hf, hp, hc⟩ := handleFileUpload_cam_frame s slot f
      exact camInv_of_frame hf hp hc ⟨h1, h2⟩
  | removeDoc slot =>
      obtain ⟨hf, hp, hc⟩ := removeDocument_cam_frame s slot
      exact camInv_of_frame hf hp hc ⟨h1, h2⟩
  | startCam env =>
      exact camInv_startCamera s env hen.2.2.2 h2
  | cancelCam =>
      obtain ⟨hf, hp, hc⟩ := stopCamera_cam_frame s
      show CamInv (stopCamera s)
      constructor
      · intro h
        rw [hc] at h
        cases h
      · rw [hf, hp]
        exact h2
  | capture env =>
      show CamInv (capturePhoto s env)
      rcases capturePhoto_cases s env with ⟨m, hm⟩ | ⟨hf, hp, hc⟩
      · exact camInv_of_frame (by rw [hm]) (by rw [hm]) (by rw [hm]) ⟨h1, h2⟩
      · constructor
        · intro h
          rw [hc] at h
          cases h
        · rw [hf, hp]
  | removeSelfie env =>
      exact camInv_startCamera _ env rfl rfl
  | next env =>
      exact camInv_handleNext s env ⟨h1, h2⟩
  | prev =>
      exact camInv_of_frame rfl rfl rfl ⟨h1, h2⟩
  | finishSubmit =>
      exact camInv_of_frame rfl rfl rfl ⟨h1, h2⟩
  | reset =>
      show CamInv (resetForm s)
      constructor
      · intro _
        cases h : s.stream <;> simp [resetForm, h]
      · cases h : s.stream <;> simp [resetForm, h]

/-- An operation whose camera fields are untouched makes no transition
between the panel and the preview. -/
theorem camTransition_of_frame {s t : AppState} (op : Op)
    (hp : t.selfiePreview = s.selfiePreview) (hc : t.showCamera = s.showCamera)
    (hI1 : s.showCamera = true → s.selfiePreview = none) :
    ((s.showCamera = true ∧ t.selfiePreview.isSome = true) →
      isCaptureStep op ∧ t.showCamera = false) ∧
    ((s.selfiePreview.isSome = true ∧ t.showCamera = true) →
      isRemoveSelfieStep op ∧ t.selfiePreview = none) := by
  constructor
  · rintro ⟨hA, hB⟩
    rw [hp, hI1 hA] at hB
    cases hB
  · rintro ⟨hB, hA⟩
    rw [hc] at hA
    rw [hI1 hA] at hB
    cases hB

/-- Among enabled operations, the only transition from panel-open to
preview-present is a capture (which closes the panel), and the only
transition from preview-present to panel-open is a selfie removal (which
clears the preview). -/
theorem camTransition_step (s : AppState) (op : Op) (hInv : CamInv s)
    (hen : enabled op s) :
    ((s.showCamera = true ∧ (applyOp op s).selfiePreview.isSome = true) →
      isCaptureStep op ∧ (applyOp op s).showCamera = false) ∧
    ((s.selfiePreview.isSome = true ∧ (applyOp op s).showCamera = true) →
      isRemoveSelfieStep op ∧ (applyOp op s).selfiePreview = none) := by
  obtain ⟨hI1, hI2⟩ := hInv
  cases op with
  | input e =>
      obtain ⟨_, hp, hc⟩ := handleInputChange_cam_frame s e
      exact camTransition_of_frame _ hp hc hI1
  | upload slot f =>
      obtain ⟨_, hp, hc⟩ := handleFileUpload_cam_frame s slot f
      exact camTransition_of_frame _ hp hc hI1
  | removeDoc slot =>
      obtain ⟨_, hp, hc⟩ := removeDocument_cam_frame s slot
      exact camTransition_of_frame _ hp hc hI1
  | startCam env =>
      constructor
      · rintro ⟨hA, _⟩
        rw [hen.2.2.1] at hA
        cases hA
      · rintro ⟨hB, _⟩
        rw [hen.2.2.2] at hB
        cases hB
  | cancelCam =>
      obtain ⟨_, hp, hc⟩ := stopCamera_cam_frame s
      constructor
      · rintro ⟨hA, hB⟩
        exfalso
        have hp2 : (applyOp Op.cancelCam s).selfiePreview = s.selfiePreview := hp
        rw [hp2, hI1 hA] at hB
        cases hB
      · rintro ⟨_, hA⟩
        exfalso
        have hc2 : (applyOp Op.cancelCam s).showCamera = false := hc
        rw [hc2] at hA
        cases hA
  | capture env =>
      constructor
      · rintro ⟨hA, _⟩
        refine ⟨trivial, ?_⟩
        show (capturePhoto s env).showCamera = false
        rcases capturePhoto_cases s env with ⟨m, hm⟩ | ⟨_, _, hc⟩
        · exfalso
          rename_i hB
          have hp : (applyOp (Op.capture env) s).selfiePreview = s.selfiePreview := by
            show (capturePhoto s env).selfiePreview = s.selfiePreview
            rw [hm]
          rw [hp, hI1 hA] at hB
          cases hB
        · exact hc
      · rintro ⟨hB, _⟩
        rw [hI1 hen.2.2.1] at hB
        cases hB
  | removeSelfie env =>
      constructor
      · rintro ⟨hA, _⟩
        rw [hen.2.2.1] at hA
        cases hA
      · rintro ⟨_, _⟩
        refine ⟨trivial, ?_⟩
        show (removeSelfiePhoto s env).selfiePreview = none
        unfold removeSelfiePhoto
        rw [(startCamera_selfie_frame _ env).2]
  | next env =>
      obtain ⟨hfr, hpr⟩ := handleNext_selfie_frame s env
      constructor
      · rintro ⟨hA, hB⟩
        have : (applyOp (Op.next env) s).selfiePreview = s.selfiePreview := hpr
        rw [this, hI1 hA] at hB
        cases hB
      · rintro ⟨hB, hA⟩
        exfalso
        have hfile : s.selfieFile.isNone = false := by
          have hsome : s.selfieFile.isSome = true := by rw [hI2]; exact hB
          cases hss : s.selfieFile
          · rw [hss] at hsome; cases hsome
          · rfl
        have hc := handleNext_showCamera_frame s env hfile
        have : (applyOp (Op.next env) s).showCamera = s.showCamera := hc
        rw [this] at hA
        rw [hI1 hA] at hB
        cases hB
  | prev =>
      exact camTransition_of_frame _ rfl rfl hI1
  | finishSubmit =>
      exact camTransition_of_frame _ rfl rfl hI1
  | reset =>
      constructor
      · rintro ⟨_, hB⟩
        exfalso
        have : (applyOp Op.reset s).selfiePreview = none := by
          show (resetForm s).selfiePreview = none
          cases h : s.stream <;> simp [resetForm, h]
        rw [this] at hB
        cases hB
      · rintro ⟨_, hA⟩
        exfalso
        have : (applyOp Op.reset s).showCamera = false := by
          show (resetForm s).showCamera = false
          cases h : s.stream <;> simp [resetForm, h]
        rw [this] at hA
        cases hA

/-- C7: in every state reachable through the program's operations, the
camera panel and a selfie preview are never shown together, and the only
enabled operations that move between the two configurations are a selfie
capture (preview becomes present, panel closes) and a selfie removal
(preview cleared, camera restarted). -/
theorem camera_selfie_exclusion_spec :
    (∀ s : AppState, Reachable s →
      ¬(s.showCamera = true ∧ s.selfiePreview.isSome = true)) ∧
    (∀ (s : AppState) (op : Op), Reachable s → enabled op s →
      ((s.showCamera = true ∧ (applyOp op s).selfiePreview.isSome = true) →
        isCaptureStep op ∧ (applyOp op s).showCamera = false) ∧
      ((s.selfiePreview.isSome = true ∧ (applyOp op s).showCamera = true) →
        isRemoveSelfieStep op ∧ (applyOp op s).selfiePreview = none)) := by
  have hreach : ∀ s : AppState, Reachable s → CamInv s := by
    intro s h
    induction h with
    | init =>
        constructor
        · intro h
          simp [initState] at h
        · rfl
    | step s op hs hen ih => exact camInv_step s op ih hen
  constructor
  · intro s hs hcontra
    obtain ⟨h1, _⟩ := hreach s hs
    rw [h1 hcontra.1] at hcontra
    cases hcontra.2
  · intro s op hs hen
    exact camTransition_step s op (hreach s hs) hen

theorem camera_selfie_exclusion_witness :
    ¬(initState.showCamera = true ∧ initState.selfiePreview.isSome = true) :=
  camera_selfie_exclusion_spec.1 initState Reachable.init
